import Mathlib

/-!
Verification of the Twenty MCP example OAuth client
(`examples/oauth-client.py`) against its specification.

The Python source is shallowly embedded: bytes are `Nat` values below 256,
byte strings are `List Nat`, the implicit random draws of
`secrets.token_bytes` / `secrets.token_hex` become explicit list arguments,
HTTP responses become an explicit record argument, and code that can raise
returns `Except`.  SHA-256 is embedded in full (FIPS 180-4) since
`generate_pkce` hashes the verifier with `hashlib.sha256`.
-/

namespace TwentyOAuth

/-! ### 32-bit word arithmetic for SHA-256 (`hashlib.sha256`) -/

/-- Reduce modulo `2 ^ 32`, the word size of SHA-256. -/
def mod32 (x : Nat) : Nat := x % 4294967296

/-- Right rotation of a 32-bit word by `n` bits. -/
def rotr32 (n w : Nat) : Nat := mod32 ((w >>> n) ||| (w <<< (32 - n)))

/-- SHA-256 choice function `Ch(x,y,z)`; the complement is taken in 32 bits. -/
def ch32 (x y z : Nat) : Nat := (x &&& y) ^^^ ((4294967295 - (x % 4294967296)) &&& z)

/-- SHA-256 majority function `Maj(x,y,z)`. -/
def maj32 (x y z : Nat) : Nat := (x &&& y) ^^^ (x &&& z) ^^^ (y &&& z)

/-- SHA-256 `Σ₀`. -/
def bigSigma0 (x : Nat) : Nat := rotr32 2 x ^^^ rotr32 13 x ^^^ rotr32 22 x

/-- SHA-256 `Σ₁`. -/
def bigSigma1 (x : Nat) : Nat := rotr32 6 x ^^^ rotr32 11 x ^^^ rotr32 25 x

/-- SHA-256 `σ₀`. -/
def smallSigma0 (x : Nat) : Nat := rotr32 7 x ^^^ rotr32 18 x ^^^ (x >>> 3)

/-- SHA-256 `σ₁`. -/
def smallSigma1 (x : Nat) : Nat := rotr32 17 x ^^^ rotr32 19 x ^^^ (x >>> 10)

/-- The 64 SHA-256 round constants (fractional parts of the cube roots of the
first 64 primes), in decimal. -/
def shaK : List Nat :=
  [1116352408, 1899447441, 3049323471, 3921009573, 961987163, 1508970993,
   2453635748, 2870763221, 3624381080, 310598401, 607225278, 1426881987,
   1925078388, 2162078206, 2614888103, 3248222580, 3835390401, 4022224774,
   264347078, 604807628, 770255983, 1249150122, 1555081692, 1996064986,
   2554220882, 2821834349, 2952996808, 3210313671, 3336571891, 3584528711,
   113926993, 338241895, 666307205, 773529912, 1294757372, 1396182291,
   1695183700, 1986661051, 2177026350, 2456956037, 2730485921, 2820302411,
   3259730800, 3345764771, 3516065817, 3600352804, 4094571909, 275423344,
   430227734, 506948616, 659060556, 883997877, 958139571, 1322822218,
   1537002063, 1747873779, 1955562222, 2024104815, 2227730452, 2361852424,
   2428436474, 2756734187, 3204031479, 3329325298]

/-- The eight SHA-256 initial hash words (fractional parts of the square roots
of the first 8 primes), in decimal. -/
def shaH0 : List Nat :=
  [1779033703, 3144134277, 1013904242, 2773480762,
   1359893119, 2600822924, 528734635, 1541459225]

/-- Big-endian 8-byte encoding of a 64-bit length field. -/
def be64 (n : Nat) : List Nat :=
  [(n >>> 56) % 256, (n >>> 48) % 256, (n >>> 40) % 256, (n >>> 32) % 256,
   (n >>> 24) % 256, (n >>> 16) % 256, (n >>> 8) % 256, n % 256]

/-- SHA-256 padding: append `0x80`, zero bytes to 56 mod 64, then the message
bit length as 8 big-endian bytes. -/
def shaPad (msg : List Nat) : List Nat :=
  let l := msg.length
  msg ++ [128] ++ List.replicate ((119 - l % 64) % 64) 0 ++ be64 (8 * l)

/-- Group bytes into big-endian 32-bit words, four bytes at a time. -/
def bytesToWords : List Nat → List Nat
  | b1 :: b2 :: b3 :: b4 :: rest =>
      (b1 <<< 24 ||| b2 <<< 16 ||| b3 <<< 8 ||| b4) :: bytesToWords rest
  | _ => []

/-- Extend the 16-word message schedule by `n` further words. -/
def extendWords : Nat → List Nat → List Nat
  | 0, ws => ws
  | n + 1, ws =>
      let m := ws.length
      let next := mod32 (smallSigma1 (ws.getD (m - 2) 0) + ws.getD (m - 7) 0 +
        smallSigma0 (ws.getD (m - 15) 0) + ws.getD (m - 16) 0)
      extendWords n (ws ++ [next])

/-- One round of the SHA-256 compression function on the 8-word working state. -/
def shaRound (st : List Nat) (kw : Nat × Nat) : List Nat :=
  match st with
  | [a, b, c, d, e, f, g, h] =>
      let t1 := mod32 (h + bigSigma1 e + ch32 e f g + kw.1 + kw.2)
      let t2 := mod32 (bigSigma0 a + maj32 a b c)
      [mod32 (t1 + t2), a, b, c, mod32 (d + t1), e, f, g]
  | other => other

/-- Compress one 64-byte block into the running 8-word hash state. -/
def shaBlock (h : List Nat) (block : List Nat) : List Nat :=
  let ws := extendWords 48 (bytesToWords block)
  let out := (shaK.zip ws).foldl shaRound h
  List.zipWith (fun x y => mod32 (x + y)) h out

/-- Split a byte list into 64-byte chunks; the first argument is fuel, always
instantiated with the list length. -/
def chunks64 : Nat → List Nat → List (List Nat)
  | 0, _ => []
  | _, [] => []
  | fuel + 1, l => l.take 64 :: chunks64 fuel (l.drop 64)

/-- Serialize the 8-word hash state to 32 bytes, big-endian. -/
def wordsToBytes : List Nat → List Nat
  | [] => []
  | w :: rest =>
      (w >>> 24) % 256 :: (w >>> 16) % 256 :: (w >>> 8) % 256 :: w % 256 :: wordsToBytes rest

/-- SHA-256 of a byte list: the 32-byte digest (`hashlib.sha256(...).digest()`).
Validated against the FIPS 180-4 test vectors for the empty message, "abc" and
the 56-byte vector. -/
def sha256 (msg : List Nat) : List Nat :=
  let padded := shaPad msg
  wordsToBytes ((chunks64 padded.length padded).foldl shaBlock shaH0)

/-! ### URL-safe base64 (`base64.urlsafe_b64encode`) and hex (`secrets.token_hex`) -/

/-- The URL-safe base64 alphabet of RFC 4648 section 5. -/
def b64Alphabet : List Char :=
  (List.range 26).map (fun i => Char.ofNat (65 + i)) ++
  (List.range 26).map (fun i => Char.ofNat (97 + i)) ++
  (List.range 10).map (fun i => Char.ofNat (48 + i)) ++ ['-', '_']

/-- Alphabet lookup; indices produced by the encoder are below 64. -/
def b64Char (n : Nat) : Char := b64Alphabet.getD n 'A'

/-- URL-safe base64 encoding with `=` padding: three input bytes per four
output characters, as `base64.urlsafe_b64encode` produces. -/
def b64urlEncode : List Nat → List Char
  | [] => []
  | [b1] => [b64Char (b1 >>> 2), b64Char ((b1 &&& 3) <<< 4), '=', '=']
  | [b1, b2] =>
      [b64Char (b1 >>> 2), b64Char (((b1 &&& 3) <<< 4) ||| (b2 >>> 4)),
       b64Char ((b2 &&& 15) <<< 2), '=']
  | b1 :: b2 :: b3 :: rest =>
      b64Char (b1 >>> 2) :: b64Char (((b1 &&& 3) <<< 4) ||| (b2 >>> 4)) ::
      b64Char (((b2 &&& 15) <<< 2) ||| (b3 >>> 6)) :: b64Char (b3 &&& 63) ::
      b64urlEncode rest

/-- Python `str.rstrip` specialised to the argument `'='` of the source:
drop all trailing `'='` characters. -/
def rstripEq (s : List Char) : List Char :=
  (s.reverse.dropWhile (fun c => c = '=')).reverse

/-- `base64.urlsafe_b64encode(bs).decode('utf-8').rstrip('=')`. -/
def b64urlNoPad (bs : List Nat) : String := ⟨rstripEq (b64urlEncode bs)⟩

/-- The lowercase hexadecimal alphabet used by `secrets.token_hex`. -/
def hexAlphabet : List Char :=
  (List.range 10).map (fun i => Char.ofNat (48 + i)) ++
  (List.range 6).map (fun i => Char.ofNat (97 + i))

/-- Hex digit lookup; the encoder only produces indices below 16. -/
def hexChar (n : Nat) : Char := hexAlphabet.getD n '0'

/-- Lowercase hex encoding of a byte list, two digits per byte. -/
def hexEncode : List Nat → List Char
  | [] => []
  | b :: rest => hexChar (b / 16) :: hexChar (b % 16) :: hexEncode rest

/-- `secrets.token_hex` applied to an explicit random byte draw. -/
def token_hex (rand : List Nat) : String := ⟨hexEncode rand⟩

/-! ### UTF-8 encoding (`str.encode('utf-8')`) -/

/-- UTF-8 bytes of a single character. -/
def utf8EncodeChar (c : Char) : List Nat :=
  let n := c.toNat
  if n < 128 then [n]
  else if n < 2048 then [192 + n / 64, 128 + n % 64]
  else if n < 65536 then [224 + n / 4096, 128 + (n / 64) % 64, 128 + n % 64]
  else [240 + n / 262144, 128 + (n / 4096) % 64, 128 + (n / 64) % 64, 128 + n % 64]

/-- UTF-8 bytes of a string, `s.encode('utf-8')`. -/
def utf8Encode (s : String) : List Nat := (s.data.map utf8EncodeChar).flatten

/-! ### The `OAuthClient` object state and the PKCE / state generators -/

/-- The mutable fields of a Python `OAuthClient` instance.  The aiohttp
session object is opaque: only its presence is modelled. -/
structure OAuthClient where
  access_token : Option String
  code_verifier : Option String
  state : Option String
  session : Option Unit

/-- The dict returned by `generate_pkce`. -/
structure PkceParams where
  code_verifier : String
  code_challenge : String
  code_challenge_method : String

/-- `OAuthClient.generate_pkce`, with the 32-byte draw of
`secrets.token_bytes(32)` made an explicit argument.  Writes
`self.code_verifier` and returns the parameter dict. -/
def generate_pkce (cl : OAuthClient) (rand : List Nat) : OAuthClient × PkceParams :=
  let verifier := b64urlNoPad rand
  let challenge := b64urlNoPad (sha256 (utf8Encode verifier))
  ({ cl with code_verifier := some verifier },
   { code_verifier := verifier, code_challenge := challenge,
     code_challenge_method := "S256" })

/-- `OAuthClient.generate_state`, with the 16-byte draw of
`secrets.token_hex(16)` made an explicit argument.  Writes `self.state`
and returns the token. -/
def generate_state (cl : OAuthClient) (rand : List Nat) : OAuthClient × String :=
  let t := token_hex rand
  ({ cl with state := some t }, t)

/-! ### The HTTP operations

Each network call is modelled as a function of the response it receives.
A raised Python exception is `Except.error`; a normal return is `Except.ok`.
`jsonError` is the `error` field of the parsed JSON body, used only by the
400 branch of `make_mcp_request`. -/

/-- An HTTP response as the client observes it. -/
structure HttpResp where
  status : Nat
  jsonError : Option String
  body : String

/-- aiohttp's `ClientResponse.ok`: true exactly when the status is below 400
(so 1xx, 2xx and 3xx responses all count as ok). -/
def respOk (status : Nat) : Bool := status < 400

/-- `OAuthClient.discover_endpoints`: raises unless `response.ok`. -/
def discover_endpoints (r : HttpResp) : Except String String :=
  if !respOk r.status then Except.error ("Discovery failed: " ++ toString r.status)
  else Except.ok r.body

/-- `OAuthClient.get_auth_server_metadata`: raises unless `response.ok`. -/
def get_auth_server_metadata (r : HttpResp) : Except String String :=
  if !respOk r.status then Except.error ("Auth server discovery failed: " ++ toString r.status)
  else Except.ok r.body

/-- `OAuthClient.store_api_key`: 401 returns `False`, any other non-ok status
raises, ok statuses return `True`. -/
def store_api_key (r : HttpResp) : Except String Bool :=
  if r.status = 401 then Except.ok false
  else if !respOk r.status then Except.error ("Failed to store API key: " ++ toString r.status)
  else Except.ok true

/-- `OAuthClient.get_api_key_metadata`: 401 returns `None`, any other non-ok
status raises, ok statuses return the metadata. -/
def get_api_key_metadata (r : HttpResp) : Except String (Option String) :=
  if r.status = 401 then Except.ok none
  else if !respOk r.status then Except.error ("Failed to get metadata: " ++ toString r.status)
  else Except.ok (some r.body)

/-- `OAuthClient.make_mcp_request`: 401 returns `None`; a 400 whose JSON
`error` field is "No API key configured" returns `None`; every other
response falls through to returning the body text. -/
def make_mcp_request (r : HttpResp) : Except String (Option String) :=
  if r.status = 401 then Except.ok none
  else if r.status = 400 ∧ r.jsonError = some "No API key configured" then Except.ok none
  else Except.ok (some r.body)

/-! ### The callback server -/

/-- The query parameters of a request to `/callback`; a missing parameter is
`none` and Python's `'error' in query` test is `isSome`. -/
structure Query where
  error : Option String
  state : Option String
  code : Option String

/-- An `aiohttp.web.Response` as built by the handler. -/
structure WebResponse where
  status : Nat
  body : String
  contentType : String

/-- Body of the 400 response for a state mismatch. -/
def invalidStateBody : String := "<h1>Invalid State</h1><p>State parameter mismatch</p>"

/-- Body of the 400 response for a missing authorization code. -/
def missingCodeBody : String := "<h1>Missing Code</h1><p>No authorization code received</p>"

/-- Body of the 200 success response. -/
def successBody : String :=
  "\n            <h1>Authorization Successful!</h1>\n            <p>You can close this window and return to the application.</p>\n            <script>window.close();</script>\n            "

/-- `CallbackServer.handle_callback`, as a function of the stored client state
and the request query.  The checks run in source order: `error` presence,
then state comparison, then code presence (Python's `if not code:` also
catches the empty string).  `web.Response` defaults to status 200. -/
def handle_callback (clientState : Option String) (q : Query) : WebResponse :=
  match q.error with
  | some e =>
      { status := 400,
        body := "<h1>Authorization Error</h1><p>" ++ e ++ "</p>",
        contentType := "text/html" }
  | none =>
      if q.state ≠ clientState then
        { status := 400, body := invalidStateBody, contentType := "text/html" }
      else
        match q.code with
        | none => { status := 400, body := missingCodeBody, contentType := "text/html" }
        | some c =>
            if c = "" then
              { status := 400, body := missingCodeBody, contentType := "text/html" }
            else
              { status := 200, body := successBody, contentType := "text/html" }

/-! ### `urllib.parse.urlencode` and the authorization URL -/

/-- Characters `quote_plus` leaves unchanged: letters, digits and `_.-~`. -/
def quoteSafe (c : Char) : Bool :=
  ('A' ≤ c && c ≤ 'Z') || ('a' ≤ c && c ≤ 'z') || ('0' ≤ c && c ≤ '9') ||
  c = '_' || c = '.' || c = '-' || c = '~'

/-- Uppercase hex digit lookup for percent-escapes. -/
def hexUpChar (n : Nat) : Char :=
  ((List.range 10).map (fun i => Char.ofNat (48 + i)) ++
   (List.range 6).map (fun i => Char.ofNat (65 + i))).getD n '0'

/-- Percent-escape of one byte, e.g. byte 58 becomes "%3A". -/
def pctEncByte (b : Nat) : List Char := ['%', hexUpChar (b / 16), hexUpChar (b % 16)]

/-- `urllib.parse.quote_plus` on one character: space becomes `+`, safe
characters pass through, everything else is percent-escaped per UTF-8 byte. -/
def quote_plus_char (c : Char) : List Char :=
  if c = ' ' then ['+']
  else if quoteSafe c then [c]
  else ((utf8EncodeChar c).map pctEncByte).flatten

/-- `urllib.parse.quote_plus` on a string. -/
def quote_plus (s : String) : String := ⟨(s.data.map quote_plus_char).flatten⟩

/-- `urllib.parse.urlencode`: key=value pairs joined with `&`, keys and
values passed through `quote_plus`, in insertion order. -/
def urlencode : List (String × String) → String
  | [] => ""
  | [p] => quote_plus p.1 ++ "=" ++ quote_plus p.2
  | p :: rest => quote_plus p.1 ++ "=" ++ quote_plus p.2 ++ "&" ++ urlencode rest

/-- The module constant `REDIRECT_URI` for `CLIENT_PORT = 8080`. -/
def REDIRECT_URI : String := "http://localhost:8080/callback"

/-- `OAuthClient.start_auth_flow` up to the construction of the authorization
URL: runs `generate_pkce` and `generate_state` (their random draws explicit)
and builds the URL from the discovered authorization endpoint.  The simulated
callback that follows in the source touches only `access_token` and is
outside this claim set. -/
def start_auth_flow (cl : OAuthClient) (authEndpoint : String)
    (randPkce randState : List Nat) : OAuthClient × String :=
  let pr := generate_pkce cl randPkce
  let sr := generate_state pr.1 randState
  let authUrl := authEndpoint ++ "?" ++ urlencode
    [("response_type", "code"),
     ("client_id", "YOUR_CLIENT_ID"),
     ("redirect_uri", REDIRECT_URI),
     ("scope", "twenty:read twenty:write"),
     ("code_challenge", pr.2.code_challenge),
     ("code_challenge_method", pr.2.code_challenge_method),
     ("state", sr.2)]
  (sr.1, authUrl)

/-! ### Character predicates from the specification -/

/-- The claim's character class for verifier and challenge: the URL-safe
base64 alphabet `A-Z a-z 0-9 - _`. -/
def isB64UrlChar (c : Char) : Bool :=
  ('A' ≤ c && c ≤ 'Z') || ('a' ≤ c && c ≤ 'z') || ('0' ≤ c && c ≤ '9') ||
  c = '-' || c = '_'

/-- Substring test used to state "the body carries this indication". -/
def startsWithL : List Char → List Char → Bool
  | _, [] => true
  | [], _ :: _ => false
  | c :: cs, p :: ps => c = p && startsWithL cs ps

/-- Does `pat` occur as a contiguous run inside the list? -/
def hasSub (pat : List Char) : List Char → Bool
  | [] => startsWithL [] pat
  | c :: cs => startsWithL (c :: cs) pat || hasSub pat cs

/-- Does `pat` occur as a contiguous substring of `s`? -/
def strContains (s pat : String) : Bool := hasSub pat.data s.data

/-! ### Claim C1: the PKCE challenge/verifier relation -/

/-- C1: for every call to `generate_pkce` (any random draw), the returned
`code_challenge` is the padding-stripped URL-safe base64 encoding of the
SHA-256 digest of the UTF-8 bytes of the returned `code_verifier`, the
returned `code_challenge_method` is "S256", and the stored
`self.code_verifier` is exactly the returned verifier. -/
theorem c1_pkce_challenge_relation (cl : OAuthClient) (rand : List Nat) :
    (generate_pkce cl rand).2.code_challenge =
      b64urlNoPad (sha256 (utf8Encode (generate_pkce cl rand).2.code_verifier)) ∧
    (generate_pkce cl rand).2.code_challenge_method = "S256" ∧
    (generate_pkce cl rand).1.code_verifier = some (generate_pkce cl rand).2.code_verifier :=
  ⟨rfl, rfl, rfl⟩

/-! ### Claim C10: frame conditions of the generators -/

/-- C10: `generate_pkce` writes only the `code_verifier` field and
`generate_state` writes only the `state` field; `access_token`, `session`
and the respectively untouched token field keep their previous values. -/
theorem c10_generator_frame (cl : OAuthClient) (r1 r2 : List Nat) :
    ((generate_pkce cl r1).1.access_token = cl.access_token ∧
     (generate_pkce cl r1).1.state = cl.state ∧
     (generate_pkce cl r1).1.session = cl.session) ∧
    ((generate_state cl r2).1.access_token = cl.access_token ∧
     (generate_state cl r2).1.code_verifier = cl.code_verifier ∧
     (generate_state cl r2).1.session = cl.session) :=
  ⟨⟨rfl, rfl, rfl⟩, ⟨rfl, rfl, rfl⟩⟩

/-! ### Claim C6: 401 responses return sentinels instead of raising -/

/-- C6: a 401 status never raises in `store_api_key`, `get_api_key_metadata`
or `make_mcp_request`; each returns its failure sentinel (`False`, `None`,
`None`). -/
theorem c6_unauthorized_sentinels (r : HttpResp) (h : r.status = 401) :
    store_api_key r = Except.ok false ∧
    get_api_key_metadata r = Except.ok none ∧
    make_mcp_request r = Except.ok none := by
  refine ⟨?_, ?_, ?_⟩ <;> simp [store_api_key, get_api_key_metadata, make_mcp_request, h]

/-- Witness for C6 at a concrete 401 response. -/
theorem c6_unauthorized_sentinels_witness :
    store_api_key { status := 401, jsonError := none, body := "" } = Except.ok false ∧
    get_api_key_metadata { status := 401, jsonError := none, body := "" } = Except.ok none ∧
    make_mcp_request { status := 401, jsonError := none, body := "" } = Except.ok none :=
  c6_unauthorized_sentinels { status := 401, jsonError := none, body := "" } rfl

/-! ### Claim C3: which responses raise

The claim says every non-2xx status outside the handled 401/400 cases raises.
That is false twice over: aiohttp's `response.ok` is `status < 400`, so 3xx
statuses do not raise either, and `make_mcp_request` performs no `ok` check
at all, returning the body text for any status outside its 401/400-sentinel
branches. -/

/-- C3 counterexample: a 500 response to `make_mcp_request` is non-2xx and is
not a handled 401/400 case, yet it is returned as a normal result rather than
raising. -/
theorem c3_mcp_does_not_raise_on_500 :
    ¬ (200 ≤ 500 ∧ 500 < 300) ∧
    make_mcp_request { status := 500, jsonError := none, body := "Internal" } =
      Except.ok (some "Internal") :=
  ⟨by decide, rfl⟩

/-- C3 amended: `discover_endpoints` and `get_auth_server_metadata` raise on
every status of 400 and above; `store_api_key` and `get_api_key_metadata`
raise on every such status except the 401 sentinel case; `make_mcp_request`
never raises; and statuses below 400 never raise anywhere. -/
theorem c3_http_error_raising (r : HttpResp) :
    (400 ≤ r.status → (discover_endpoints r).isOk = false) ∧
    (400 ≤ r.status → (get_auth_server_metadata r).isOk = false) ∧
    (400 ≤ r.status → r.status ≠ 401 → (store_api_key r).isOk = false) ∧
    (400 ≤ r.status → r.status ≠ 401 → (get_api_key_metadata r).isOk = false) ∧
    (make_mcp_request r).isOk = true ∧
    (r.status < 400 →
      (discover_endpoints r).isOk = true ∧
      (get_auth_server_metadata r).isOk = true ∧
      (store_api_key r).isOk = true ∧
      (get_api_key_metadata r).isOk = true) := by
  refine ⟨fun h => ?_, fun h => ?_, fun h h401 => ?_, fun h h401 => ?_, ?_, fun h => ?_⟩
  · simp [discover_endpoints, respOk, Nat.not_lt_of_le h, Except.isOk, Except.toBool]
  · simp [get_auth_server_metadata, respOk, Nat.not_lt_of_le h, Except.isOk, Except.toBool]
  · simp [store_api_key, respOk, h401, Nat.not_lt_of_le h, Except.isOk, Except.toBool]
  · simp [get_api_key_metadata, respOk, h401, Nat.not_lt_of_le h, Except.isOk, Except.toBool]
  · by_cases h1 : r.status = 401
    · simp [make_mcp_request, h1, Except.isOk, Except.toBool]
    · by_cases h2 : r.status = 400 ∧ r.jsonError = some "No API key configured"
      · simp [make_mcp_request, h1, h2, Except.isOk, Except.toBool]
      · simp [make_mcp_request, h1, h2, Except.isOk, Except.toBool]
  · by_cases h1 : r.status = 401
    · omega
    · refine ⟨?_, ?_, ?_, ?_⟩ <;>
        simp [discover_endpoints, get_auth_server_metadata, store_api_key,
          get_api_key_metadata, respOk, h, h1, Except.isOk, Except.toBool]

/-- Witness for C3 at concrete 404 and 200 responses. -/
theorem c3_http_error_raising_witness :
    (discover_endpoints { status := 404, jsonError := none, body := "" }).isOk = false ∧
    (store_api_key { status := 404, jsonError := none, body := "" }).isOk = false ∧
    (store_api_key { status := 200, jsonError := none, body := "" }).isOk = true :=
  ⟨(c3_http_error_raising { status := 404, jsonError := none, body := "" }).1 (by decide),
   (c3_http_error_raising { status := 404, jsonError := none, body := "" }).2.2.1
     (by decide) (by decide),
   ((c3_http_error_raising { status := 200, jsonError := none, body := "" }).2.2.2.2.2
     (by decide)).2.2.1⟩

/-! ### Claims C2 and C9: the callback handler

The source checks `error` first, then the state, then the code, so the
spec's "state mismatch yields the Invalid State body" clause fails whenever
an `error` parameter is also present, and the "Missing Code" clause fails
whenever the state also mismatches. -/

/-- C2 counterexample: with an `error` parameter present and a mismatched
state, the claim's first clause fails — the status is 400 but the body
carries the Authorization Error indication, not "Invalid State". -/
theorem c2_error_shadows_invalid_state :
    (some "bad" : Option String) ≠ (some "good" : Option String) ∧
    (handle_callback (some "good")
      { error := some "access_denied", state := some "bad", code := none }).status = 400 ∧
    strContains (handle_callback (some "good")
      { error := some "access_denied", state := some "bad", code := none }).body
      "Invalid State" = false :=
  ⟨by decide, rfl, by decide⟩

/-- C2 amended: with the source's check order made explicit — an `error`
parameter always yields 400; with no `error`, a state mismatch yields 400
with the Invalid State indication; with no `error` and a matching state, a
missing or empty code yields 400 with the Missing Code indication; and with
no `error`, a matching state and a non-empty code the status is 200. -/
theorem c2_callback_responses (st : Option String) (q : Query) :
    (q.error.isSome = true → (handle_callback st q).status = 400) ∧
    (q.error = none → q.state ≠ st →
      (handle_callback st q).status = 400 ∧
      strContains (handle_callback st q).body "Invalid State" = true) ∧
    (q.error = none → q.state = st → (q.code = none ∨ q.code = some "") →
      (handle_callback st q).status = 400 ∧
      strContains (handle_callback st q).body "Missing Code" = true) ∧
    (∀ c, q.error = none → q.state = st → q.code = some c → c ≠ "" →
      (handle_callback st q).status = 200) := by
  refine ⟨?_, ?_, ?_, ?_⟩
  · intro h
    cases hq : q.error with
    | some e => simp [handle_callback, hq]
    | none => rw [hq] at h; simp at h
  · intro he hs
    have hcb : handle_callback st q =
        { status := 400, body := invalidStateBody, contentType := "text/html" } := by
      simp [handle_callback, he, hs]
    rw [hcb]
    exact ⟨rfl, by decide⟩
  · intro he hst hcode
    rcases hcode with hc | hc
    · have hcb : handle_callback st q =
          { status := 400, body := missingCodeBody, contentType := "text/html" } := by
        simp [handle_callback, he, hst, hc]
      rw [hcb]
      exact ⟨rfl, by decide⟩
    · have hcb : handle_callback st q =
          { status := 400, body := missingCodeBody, contentType := "text/html" } := by
        simp [handle_callback, he, hst, hc]
      rw [hcb]
      exact ⟨rfl, by decide⟩
  · intro c he hst hc hne
    simp [handle_callback, he, hst, hc, hne]

/-- Witness for C2 at a concrete matching-state request with a code. -/
theorem c2_callback_responses_witness :
    (handle_callback (some "s")
      { error := none, state := some "s", code := some "abc" }).status = 200 :=
  (c2_callback_responses (some "s")
    { error := none, state := some "s", code := some "abc" }).2.2.2 "abc" rfl rfl rfl
    (by decide)

/-- The Authorization Error body never coincides with the Invalid State body:
they already differ at character index 4. -/
theorem authError_body_ne_invalid (e : String) :
    "<h1>Authorization Error</h1><p>" ++ e ++ "</p>" ≠ invalidStateBody := by
  intro h
  have h4 := congrArg (fun s => s.data.getD 4 ' ') h
  simp only [String.data_append] at h4
  rw [List.getD_append _ _ _ 4 (by
        rw [List.length_append]
        simp only [List.length_cons, List.length_nil]
        omega),
      List.getD_append _ _ _ 4 (by decide)] at h4
  exact absurd h4 (by decide)

/-- C9: the callback checks run in the order error, state, code — a request
with an `error` parameter earns the 400 Authorization Error response whatever
its state and code look like, and the Invalid State body occurs only when no
`error` parameter is present (and the state indeed mismatches). -/
theorem c9_check_order (st : Option String) (q : Query) :
    (∀ e, q.error = some e →
      handle_callback st q =
        { status := 400, body := "<h1>Authorization Error</h1><p>" ++ e ++ "</p>",
          contentType := "text/html" }) ∧
    ((handle_callback st q).body = invalidStateBody → q.error = none ∧ q.state ≠ st) := by
  constructor
  · intro e he
    simp [handle_callback, he]
  · intro hbody
    cases hq : q.error with
    | some e =>
        have hcb : handle_callback st q =
            { status := 400, body := "<h1>Authorization Error</h1><p>" ++ e ++ "</p>",
              contentType := "text/html" } := by simp [handle_callback, hq]
        rw [hcb] at hbody
        exact absurd hbody (authError_body_ne_invalid e)
    | none =>
        refine ⟨rfl, ?_⟩
        intro hst
        cases hc : q.code with
        | none =>
            have hcb : handle_callback st q =
                { status := 400, body := missingCodeBody, contentType := "text/html" } := by
              simp [handle_callback, hq, hst, hc]
            rw [hcb] at hbody
            exact absurd hbody (by decide)
        | some c =>
            by_cases hce : c = ""
            · have hcb : handle_callback st q =
                  { status := 400, body := missingCodeBody, contentType := "text/html" } := by
                simp [handle_callback, hq, hst, hc, hce]
              rw [hcb] at hbody
              exact absurd hbody (by decide)
            · have hcb : handle_callback st q =
                  { status := 200, body := successBody, contentType := "text/html" } := by
                simp [handle_callback, hq, hst, hc, hce]
              rw [hcb] at hbody
              exact absurd hbody (by decide)

/-- Witness for C9 at a concrete request carrying an error, a mismatched
state and no code. -/
theorem c9_check_order_witness :
    handle_callback (some "good") { error := some "denied", state := some "bad", code := none } =
      { status := 400, body := "<h1>Authorization Error</h1><p>denied</p>",
        contentType := "text/html" } := by
  have h := (c9_check_order (some "good")
    { error := some "denied", state := some "bad", code := none }).1 "denied" rfl
  rw [h]
  rfl

/-! ### Claim C4: character sets of verifier and challenge -/

/-- Every alphabet lookup lands in the alphabet (out-of-range indices hit the
default, which is also an alphabet character). -/
theorem b64Char_mem (n : Nat) : b64Char n ∈ b64Alphabet := by
  by_cases h : n < b64Alphabet.length
  · rw [b64Char, List.getD_eq_getElem _ _ h]
    exact List.getElem_mem h
  · rw [b64Char, List.getD_eq_default _ _ (Nat.le_of_not_lt h)]
    decide

/-- The padded base64 encoding splits into alphabet characters followed by a
(possibly empty) run of trailing padding. -/
theorem b64urlEncode_split_aux : ∀ (n : Nat) (l : List Nat), l.length ≤ n →
    ∃ m k, b64urlEncode l = m ++ List.replicate k '=' ∧ ∀ c ∈ m, c ∈ b64Alphabet := by
  intro n
  induction n with
  | zero =>
      intro l hl
      rw [List.eq_nil_of_length_eq_zero (Nat.le_zero.mp hl)]
      exact ⟨[], 0, rfl, by simp⟩
  | succ n ih =>
      intro l hl
      match l with
      | [] => exact ⟨[], 0, rfl, by simp⟩
      | [b1] =>
          refine ⟨[b64Char (b1 >>> 2), b64Char ((b1 &&& 3) <<< 4)], 2, rfl, ?_⟩
          intro c hc
          simp only [List.mem_cons, List.not_mem_nil, or_false] at hc
          rcases hc with rfl | rfl
          · exact b64Char_mem _
          · exact b64Char_mem _
      | [b1, b2] =>
          refine ⟨[b64Char (b1 >>> 2), b64Char (((b1 &&& 3) <<< 4) ||| (b2 >>> 4)),
            b64Char ((b2 &&& 15) <<< 2)], 1, rfl, ?_⟩
          intro c hc
          simp only [List.mem_cons, List.not_mem_nil, or_false] at hc
          rcases hc with rfl | rfl | rfl
          · exact b64Char_mem _
          · exact b64Char_mem _
          · exact b64Char_mem _
      | b1 :: b2 :: b3 :: rest =>
          obtain ⟨m, k, hm, hmem⟩ := ih rest (by
            simp only [List.length_cons] at hl
            omega)
          refine ⟨b64Char (b1 >>> 2) :: b64Char (((b1 &&& 3) <<< 4) ||| (b2 >>> 4)) ::
            b64Char (((b2 &&& 15) <<< 2) ||| (b3 >>> 6)) :: b64Char (b3 &&& 63) :: m, k, ?_, ?_⟩
          · show b64urlEncode (b1 :: b2 :: b3 :: rest) = _
            rw [b64urlEncode, hm]
            simp [List.cons_append]
          · intro c hc
            simp only [List.mem_cons] at hc
            rcases hc with rfl | rfl | rfl | rfl | hc
            · exact b64Char_mem _
            · exact b64Char_mem _
            · exact b64Char_mem _
            · exact b64Char_mem _
            · exact hmem c hc

/-- Specialisation of the split lemma to the list itself. -/
theorem b64urlEncode_split (l : List Nat) :
    ∃ m k, b64urlEncode l = m ++ List.replicate k '=' ∧ ∀ c ∈ m, c ∈ b64Alphabet :=
  b64urlEncode_split_aux l.length l (Nat.le_refl _)

/-- dropWhile for the padding predicate is the identity on padding-free lists. -/
theorem dropWhile_eqChar_of_ne (s : List Char) (h : ∀ c ∈ s, ¬ c = '=') :
    s.dropWhile (fun c => c = '=') = s := by
  cases s with
  | nil => rfl
  | cons c cs =>
      have hc : ¬ c = '=' := h c (List.mem_cons_self c cs)
      simp [List.dropWhile_cons, hc]

/-- A leading run of padding is consumed by dropWhile. -/
theorem dropWhile_replicate_eq (k : Nat) (s : List Char) :
    (List.replicate k '=' ++ s).dropWhile (fun c => c = '=') =
      s.dropWhile (fun c => c = '=') := by
  induction k with
  | zero => rfl
  | succ k ih => simp [List.replicate_succ, List.dropWhile_cons, ih]

/-- Stripping trailing padding from clean-plus-padding returns the clean part. -/
theorem rstripEq_clean (m : List Char) (k : Nat) (h : ∀ c ∈ m, ¬ c = '=') :
    rstripEq (m ++ List.replicate k '=') = m := by
  unfold rstripEq
  rw [List.reverse_append, List.reverse_replicate, dropWhile_replicate_eq,
      dropWhile_eqChar_of_ne _ (fun c hc => h c (List.mem_reverse.mp hc)),
      List.reverse_reverse]

/-- No alphabet character is the padding character. -/
theorem b64Alphabet_ne_pad : ∀ c ∈ b64Alphabet, ¬ c = '=' := by decide

/-- Every alphabet character satisfies the claim's character class. -/
theorem b64Alphabet_urlSafe : ∀ c ∈ b64Alphabet, isB64UrlChar c = true := by decide

/-- Every character of a padding-stripped encoding is an alphabet character. -/
theorem b64urlNoPad_chars (bs : List Nat) :
    ∀ c ∈ (b64urlNoPad bs).data, c ∈ b64Alphabet := by
  obtain ⟨m, k, hm, hmem⟩ := b64urlEncode_split bs
  intro c hc
  have hc2 : c ∈ rstripEq (b64urlEncode bs) := hc
  rw [hm, rstripEq_clean m k (fun x hx => b64Alphabet_ne_pad x (hmem x hx))] at hc2
  exact hmem c hc2

/-- C4: both strings returned by `generate_pkce` are free of `=` characters
and consist only of URL-safe base64 alphabet characters. -/
theorem c4_token_charset (cl : OAuthClient) (rand : List Nat) :
    (∀ c ∈ ((generate_pkce cl rand).2.code_verifier).data,
      ¬ c = '=' ∧ isB64UrlChar c = true) ∧
    (∀ c ∈ ((generate_pkce cl rand).2.code_challenge).data,
      ¬ c = '=' ∧ isB64UrlChar c = true) := by
  constructor
  · intro c hc
    have hmem : c ∈ b64Alphabet := b64urlNoPad_chars rand c hc
    exact ⟨b64Alphabet_ne_pad c hmem, b64Alphabet_urlSafe c hmem⟩
  · intro c hc
    have hmem : c ∈ b64Alphabet :=
      b64urlNoPad_chars (sha256 (utf8Encode (b64urlNoPad rand))) c hc
    exact ⟨b64Alphabet_ne_pad c hmem, b64Alphabet_urlSafe c hmem⟩

/-- Witness for C4: a concrete character of a concrete verifier. -/
theorem c4_token_charset_witness :
    'A' ∈ ((generate_pkce ⟨none, none, none, none⟩ [0, 0, 0]).2.code_verifier).data ∧
    (¬ 'A' = '=' ∧ isB64UrlChar 'A' = true) :=
  ⟨by decide,
   (c4_token_charset ⟨none, none, none, none⟩ [0, 0, 0]).1 'A' (by decide)⟩

/-! ### Claim C8: the state token -/

/-- Every hex digit lookup lands in the hex alphabet. -/
theorem hexChar_mem (n : Nat) : hexChar n ∈ hexAlphabet := by
  by_cases h : n < hexAlphabet.length
  · rw [hexChar, List.getD_eq_getElem _ _ h]
    exact List.getElem_mem h
  · rw [hexChar, List.getD_eq_default _ _ (Nat.le_of_not_lt h)]
    decide

/-- Every character of a hex encoding is a lowercase hex digit. -/
theorem hexEncode_chars (bs : List Nat) : ∀ c ∈ hexEncode bs, c ∈ hexAlphabet := by
  induction bs with
  | nil => simp [hexEncode]
  | cons b rest ih =>
      intro c hc
      simp only [hexEncode, List.mem_cons] at hc
      rcases hc with rfl | rfl | hc
      · exact hexChar_mem _
      · exact hexChar_mem _
      · exact ih c hc

/-- The digit table is injective on indices below 16. -/
theorem hexChar_inj : ∀ i < 16, ∀ j < 16, hexChar i = hexChar j → i = j := by decide

/-- Hex encoding is injective on byte lists of equal length. -/
theorem hexEncode_inj : ∀ (r1 r2 : List Nat), r1.length = r2.length →
    (∀ b ∈ r1, b < 256) → (∀ b ∈ r2, b < 256) →
    hexEncode r1 = hexEncode r2 → r1 = r2 := by
  intro r1
  induction r1 with
  | nil =>
      intro r2 hl _ _ _
      cases r2 with
      | nil => rfl
      | cons b t => simp at hl
  | cons b1 t1 ih =>
      intro r2 hl h1 h2 henc
      cases r2 with
      | nil => simp at hl
      | cons b2 t2 =>
          simp only [hexEncode] at henc
          injection henc with hd tl
          injection tl with hd2 tl2
          have hb1 : b1 < 256 := h1 b1 (List.mem_cons_self b1 t1)
          have hb2 : b2 < 256 := h2 b2 (List.mem_cons_self b2 t2)
          have e1 : b1 / 16 = b2 / 16 := hexChar_inj _ (by omega) _ (by omega) hd
          have e2 : b1 % 16 = b2 % 16 := hexChar_inj _ (by omega) _ (by omega) hd2
          have hb : b1 = b2 := by omega
          subst hb
          have ht : t1 = t2 := ih t2 (by simpa using hl)
            (fun b hb => h1 b (List.mem_cons_of_mem _ hb))
            (fun b hb => h2 b (List.mem_cons_of_mem _ hb)) tl2
          rw [ht]

/-- C8: the token returned by `generate_state` is a lowercase hexadecimal
string, the stored `self.state` equals the returned token, and distinct
16-byte random draws always give distinct tokens. -/
theorem c8_state_token (cl : OAuthClient) (r1 r2 : List Nat)
    (h1 : ∀ b ∈ r1, b < 256) (h2 : ∀ b ∈ r2, b < 256)
    (hl1 : r1.length = 16) (hl2 : r2.length = 16) (hne : r1 ≠ r2) :
    (∀ c ∈ ((generate_state cl r1).2).data, c ∈ hexAlphabet) ∧
    (generate_state cl r1).1.state = some (generate_state cl r1).2 ∧
    (generate_state cl r1).2 ≠ (generate_state cl r2).2 := by
  refine ⟨?_, rfl, ?_⟩
  · intro c hc
    exact hexEncode_chars r1 c hc
  · intro heq
    exact hne (hexEncode_inj r1 r2 (by omega) h1 h2 (congrArg String.data heq))

/-- Witness for C8 at two concrete distinct 16-byte draws. -/
theorem c8_state_token_witness :
    (List.replicate 16 0 : List Nat) ≠ List.replicate 15 0 ++ [1] ∧
    (generate_state ⟨none, none, none, none⟩ (List.replicate 16 0)).2 ≠
      (generate_state ⟨none, none, none, none⟩ (List.replicate 15 0 ++ [1])).2 :=
  ⟨by decide,
   (c8_state_token ⟨none, none, none, none⟩ (List.replicate 16 0)
     (List.replicate 15 0 ++ [1]) (by decide) (by decide) (by decide) (by decide)
     (by decide)).2.2⟩

/-! ### Claim C7: the authorization URL -/

/-- Every base64-alphabet character is quote-safe (left alone by quote_plus). -/
theorem b64Alphabet_quoteSafe : ∀ c ∈ b64Alphabet, quoteSafe c = true := by decide

/-- Every hex digit is quote-safe. -/
theorem hexAlphabet_quoteSafe : ∀ c ∈ hexAlphabet, quoteSafe c = true := by decide

/-- quote_plus passes a quote-safe character through unchanged. -/
theorem quote_plus_char_safe (c : Char) (h : quoteSafe c = true) :
    quote_plus_char c = [c] := by
  have hsp : ¬ c = ' ' := by
    intro he
    rw [he] at h
    exact absurd h (by decide)
  rw [quote_plus_char, if_neg hsp, if_pos h]

/-- On a list of quote-safe characters the encoder is the identity. -/
theorem quote_plus_flatten_safe (l : List Char) (h : ∀ c ∈ l, quoteSafe c = true) :
    (l.map quote_plus_char).flatten = l := by
  induction l with
  | nil => rfl
  | cons c cs ih =>
      rw [List.map_cons, List.flatten_cons,
          quote_plus_char_safe c (h c (List.mem_cons_self c cs)),
          ih (fun x hx => h x (List.mem_cons_of_mem _ hx))]
      rfl

/-- quote_plus is the identity on strings of quote-safe characters. -/
theorem quote_plus_of_safe (s : String) (h : ∀ c ∈ s.data, quoteSafe c = true) :
    quote_plus s = s :=
  String.ext (quote_plus_flatten_safe s.data h)

/-- C7: `start_auth_flow` builds the authorization URL as the discovered
authorization endpoint, a `?`, and the urlencoded query of exactly the seven
parameters in source order, with the challenge just produced by
`generate_pkce`, method S256, and the state just produced by
`generate_state`; moreover the encoding percent-escapes the redirect URI and
the scope exactly as expected, and leaves the challenge and the state
unchanged. -/
theorem c7_auth_url (cl : OAuthClient) (ep : String) (r s : List Nat) :
    (start_auth_flow cl ep r s).2 =
      ep ++ "?" ++ urlencode
        [("response_type", "code"),
         ("client_id", "YOUR_CLIENT_ID"),
         ("redirect_uri", REDIRECT_URI),
         ("scope", "twenty:read twenty:write"),
         ("code_challenge", (generate_pkce cl r).2.code_challenge),
         ("code_challenge_method", "S256"),
         ("state", (generate_state (generate_pkce cl r).1 s).2)] ∧
    quote_plus REDIRECT_URI = "http%3A%2F%2Flocalhost%3A8080%2Fcallback" ∧
    quote_plus "twenty:read twenty:write" = "twenty%3Aread+twenty%3Awrite" ∧
    quote_plus (generate_pkce cl r).2.code_challenge =
      (generate_pkce cl r).2.code_challenge ∧
    quote_plus (generate_state (generate_pkce cl r).1 s).2 =
      (generate_state (generate_pkce cl r).1 s).2 := by
  refine ⟨rfl, rfl, rfl, ?_, ?_⟩
  · exact quote_plus_of_safe _
      (fun c hc => b64Alphabet_quoteSafe c
        (b64urlNoPad_chars (sha256 (utf8Encode (b64urlNoPad r))) c hc))
  · exact quote_plus_of_safe _
      (fun c hc => hexAlphabet_quoteSafe c (hexEncode_chars s c hc))

end TwentyOAuth
